import Mathlib

/-!
Verification of the corgos build-and-launch orchestrator (`run.py`) and the
virtual-address decomposition utility (`tools/va.py`).

The Python source is embedded shallowly:

* Pure string manipulation (`get_arch_name_normalized`, the qemu command
  template, the boot descriptor text) becomes pure Lean functions on `String`.
* The filesystem effects of `setup_directories`, `copy_files` and
  `write_boot_ini` are modelled by explicit state passing over a small
  filesystem model `FS` (a list of directories and a list of files, where a
  file records the source/content it was written from).
* External collaborators are oracles passed in as parameters: the host
  platform (`host_machine`, `host_system`, mirroring `platform.machine()` and
  `platform.system()`), git provenance (`GitState`, mirroring the four
  `subprocess.check_output` calls of `get_git_info`), the cargo toolchain
  (`cargo_ok : String → Bool`, success of a cargo invocation keyed by target
  triple), and the emulator exit status (`qemu_exit : Nat`).
* `PWD = os.getcwd()` is a run-time input; definitions take it as a `pwd`
  parameter and theorems instantiate it with the representative absolute path
  `the_pwd` (claims never depend on its value).
* Exceptions become `Except AppError`; `main`'s `try/except Exception` block
  is modelled by matching on the `Except` result.
-/

/-- Python `str.split()` with no separator: split on runs of whitespace and
drop empty fragments. -/
def pySplit (s : String) : List String :=
  ((s.toList.splitOnP (fun c => c.isWhitespace)).map (fun l => String.mk l)).filter
    (fun t => t ≠ "")

/-- Python `str.lower()` (the strings of this program are ASCII). -/
def pyLower (s : String) : String := String.mk (s.toList.map Char.toLower)

/-- Python `str.strip()`. -/
def pyStrip (s : String) : String :=
  String.mk (((s.toList.dropWhile Char.isWhitespace).reverse.dropWhile
    Char.isWhitespace).reverse)

/-- Python `sub in s` substring containment. -/
def pyContains (s sub : String) : Bool := decide (sub.toList <:+: s.toList)

/-- Python `os.path.basename` for the slash-separated paths used here. -/
def os_path_basename (s : String) : String :=
  ((s.toList.splitOnP (fun c => c = '/')).map (fun l => String.mk l)).getLastD ""

/-- Module constant `NUM_PROC = 8` of run.py. -/
def NUM_PROC : Nat := 8

/-- Module constant `MEMORY = "8192M"` of run.py. -/
def MEMORY : String := "8192M"

/-- Module constant `SILENT = "silent-"` of run.py. -/
def SILENT : String := "silent-"

/-- Representative working directory standing for `PWD = os.getcwd()`. -/
def the_pwd : String := "/corgos"

/-- One value of the `ARCH_CONFIG` table of run.py. -/
structure ArchConfig where
  cpu : String
  machine : String
  semihosting : String
  log_device : String
  ovmf_code : String
  ovmf_vars : String
  boot_efi : String
  boot_ini : String
  deriving DecidableEq, Repr

/-- The x86_64 entry of the `ARCH_CONFIG` table of run.py. -/
def x86_64_config (pwd : String) : ArchConfig :=
  { cpu := "SandyBridge,-tsc-deadline"
    machine := "q35"
    semihosting := "-device isa-debug-exit"
    log_device := "com1"
    ovmf_code := pwd ++ "/edk2-uefi/ovmf-x64-4m/OVMF_CODE.fd"
    ovmf_vars := pwd ++ "/edk2-uefi/ovmf-x64-4m/OVMF_VARS.fd"
    boot_efi := "bootx64.efi"
    boot_ini := "corgos-boot-x86_64.ini" }

/-- The aarch64 entry of the `ARCH_CONFIG` table of run.py. -/
def aarch64_config (pwd : String) : ArchConfig :=
  { cpu := "cortex-a72"
    machine := "virt"
    semihosting := "-semihosting"
    log_device := "\"pl011@9000000\""
    ovmf_code := pwd ++ "/edk2-uefi/aarch64/QEMU_EFI-" ++ SILENT ++ "pflash.raw"
    ovmf_vars := pwd ++ "/edk2-uefi/aarch64/vars-template-pflash.raw"
    boot_efi := "bootaa64.efi"
    boot_ini := "corgos-boot-aarch64.ini" }

/-- The `ARCH_CONFIG` table of run.py, keyed by canonical architecture id,
in the insertion order of the Python dict. -/
def ARCH_CONFIG (pwd : String) : List (String × ArchConfig) :=
  [("x86_64", x86_64_config pwd), ("aarch64", aarch64_config pwd)]

/-- Module constant `EFI_DIR` of run.py. -/
def EFI_DIR (pwd : String) : String := pwd ++ "/esp"

/-- Module constant `OVMF_DIR` of run.py. -/
def OVMF_DIR (pwd : String) : String := pwd ++ "/ovmf"

/-- `get_arch_name_normalized` of run.py, verbatim: the fallback is the
lower-cased name, but the alias comparisons are made against the original
(unlowered) `arch_name`. -/
def get_arch_name_normalized (arch_name : String) : String :=
  let arch_normalized := pyLower arch_name
  if arch_name = "arm64" then "aarch64"
  else if arch_name = "amd64" then "x86_64"
  else if arch_name = "x64" then "x86_64"
  else arch_normalized

/-- The supported architecture aliases: the canonical ids registered in
`ARCH_CONFIG` plus the three aliases recognized by
`get_arch_name_normalized`. -/
def arch_aliases : List String :=
  (ARCH_CONFIG the_pwd).map Prod.fst ++ ["arm64", "amd64", "x64"]

/-- Error kinds of the orchestrator (run.py raises plain `Exception`s and
`subprocess.CalledProcessError`s; the spec names them by stage). -/
inductive AppError where
  | configuration (arch : String)
  | incompatibleAcceleration
  | buildFailure (arch : String)
  | launchFailure (code : Nat)
  deriving DecidableEq, Repr

/-- `get_accelerator` of run.py.  `host_machine` and `host_system` stand for
`platform.machine()` and `platform.system()`. -/
def get_accelerator (host_machine host_system target_arch : String) (accel : Bool) :
    Except AppError String :=
  let system_arch := pyLower host_machine
  if !accel then .ok ""
  else if get_arch_name_normalized system_arch ≠ get_arch_name_normalized target_arch then
    .error .incompatibleAcceleration
  else
    let system := pyLower host_system
    if pyContains system "linux" then .ok "-enable-kvm"
    else if pyContains system "darwin" then .ok "-accel hvf"
    else .ok ""

/-- The f-string template run.py builds for the qemu invocation, before it is
re-split on whitespace.  `cpu` and `semihosting` are computed exactly as in
`run_qemu`; `accel_option` is the string returned by `get_accelerator`. -/
def qemu_template (pwd arch : String) (config : ArchConfig) (accel : Bool)
    (accel_option : String) : String :=
  let cpu := if accel then "host" else config.cpu
  let semihosting := if accel then "" else config.semihosting
  "\n        qemu-system-" ++ arch ++ " \n" ++
  "            -nodefaults -s\n" ++
  "            -machine " ++ config.machine ++ "\n" ++
  "            " ++ accel_option ++ "\n" ++
  "            -cpu " ++ cpu ++ "\n" ++
  "            -m " ++ MEMORY ++ "\n" ++
  "            -smp " ++ toString NUM_PROC ++ "\n" ++
  "            " ++ semihosting ++ "\n" ++
  "            -chardev stdio,id=char0,mux=on,logfile=serial1.log,signal=off\n" ++
  "            -chardev file,id=fwdebug,path=fw.log\n" ++
  "            -serial chardev:char0\n" ++
  "            -mon chardev=char0\n" ++
  "            -chardev file,path=serial2.log,id=char1\n" ++
  "            -serial chardev:char1\n" ++
  "            -drive format=raw,file=fat:rw:" ++ EFI_DIR pwd ++ "\n" ++
  "            -drive if=pflash,format=raw,file=" ++ OVMF_DIR pwd ++ "/" ++
    os_path_basename config.ovmf_code ++ ",readonly=on\n" ++
  "            -drive if=pflash,format=raw,file=" ++ OVMF_DIR pwd ++ "/" ++
    os_path_basename config.ovmf_vars ++ "\n" ++
  "            -nographic\n    "

/-- The composed qemu argument vector: the template after Python `.split()`. -/
def qemu_command (pwd arch : String) (config : ArchConfig) (accel : Bool)
    (accel_option : String) : List String :=
  pySplit (qemu_template pwd arch config accel accel_option)

/-- The `VirtAddr` decomposition of tools/va.py. -/
structure VirtAddr where
  offset : Nat
  lvl0 : Nat
  lvl1 : Nat
  lvl2 : Nat
  lvl3 : Nat
  deriving DecidableEq, Repr

/-- The `VirtAddr.__init__` bit slicing of tools/va.py. -/
def VirtAddr.ofNat (va : Nat) : VirtAddr :=
  { offset := va &&& 0xfff
    lvl0 := (va >>> 12) &&& 0x1ff
    lvl1 := (va >>> 21) &&& 0x1ff
    lvl2 := (va >>> 30) &&& 0x1ff
    lvl3 := (va >>> 39) &&& 0x1ff }

/-- Filesystem paths as lists of components. -/
abbrev FPath := List String

/-- Slash-separated path string to components (absolute and relative paths
used by run.py have no empty components once the leading slash is dropped). -/
def strPath (s : String) : FPath :=
  ((s.toList.splitOnP (fun c => c = '/')).map (fun l => String.mk l)).filter
    (fun t => t ≠ "")

/-- Filesystem model: the directories that exist and the regular files, each
file recording the source string it was last written from (for copies, the
source path; for the boot descriptor, its text). -/
structure FS where
  dirs : List FPath
  files : List (FPath × String)
  deriving DecidableEq, Repr

/-- An empty filesystem. -/
def FS.empty : FS := ⟨[], []⟩

/-- Model of `os.path.exists` restricted to the paths run.py queries. -/
def path_exists (fs : FS) (p : FPath) : Bool :=
  fs.dirs.contains p || fs.files.any (fun f => f.1 == p)

/-- Model of `shutil.rmtree`: drop the directory and everything below it. -/
def rmtree (fs : FS) (p : FPath) : FS :=
  { dirs := fs.dirs.filter (fun d => !p.isPrefixOf d),
    files := fs.files.filter (fun f => !p.isPrefixOf f.1) }

/-- Model of `os.makedirs(..., exist_ok=True)`: create the directory and all
its ancestors. -/
def makedirs (fs : FS) (p : FPath) : FS :=
  { fs with dirs := fs.dirs ++ p.inits.filter (fun q => !q.isEmpty) }

/-- Writing (or overwriting) a regular file. -/
def write_file (fs : FS) (p : FPath) (content : String) : FS :=
  { fs with files := fs.files.filter (fun f => f.1 ≠ p) ++ [(p, content)] }

/-- `setup_directories` of run.py. -/
def setup_directories (pwd : String) (fs : FS) : FS :=
  let fs1 := if path_exists fs (strPath (EFI_DIR pwd))
             then rmtree fs (strPath (EFI_DIR pwd)) else fs
  let fs2 := if path_exists fs1 (strPath (OVMF_DIR pwd))
             then rmtree fs1 (strPath (OVMF_DIR pwd)) else fs1
  let fs3 := makedirs fs2 (strPath (EFI_DIR pwd ++ "/efi/boot"))
  makedirs fs3 (strPath (OVMF_DIR pwd))

/-- `copy_files` of run.py.  `shutil.copy(src, dir)` places the copy at
`dir/basename(src)`; the boot loader copy names its destination explicitly.
The Python body looks `config` up as `ARCH_CONFIG[arch]`; callers of this
model pass the result of that lookup. -/
def copy_files (pwd arch : String) (config : ArchConfig) (release : Bool) (fs : FS) : FS :=
  let build_type := if release then "release" else "debug"
  let build_dir := pwd ++ "/target/" ++ arch ++ "-unknown-uefi/" ++ build_type
  let fs1 := write_file fs
    (strPath (OVMF_DIR pwd) ++ [os_path_basename config.ovmf_code]) config.ovmf_code
  let fs2 := write_file fs1
    (strPath (OVMF_DIR pwd) ++ [os_path_basename config.ovmf_vars]) config.ovmf_vars
  write_file fs2 (strPath (EFI_DIR pwd ++ "/efi/boot/" ++ config.boot_efi))
    (build_dir ++ "/boot_loader.efi")

/-- The staging reset-and-populate operation of spec section 4.3: run.py's
`setup_directories` followed by `copy_files`. -/
def reset_and_populate (pwd arch : String) (config : ArchConfig) (release : Bool)
    (fs : FS) : FS :=
  copy_files pwd arch config release (setup_directories pwd fs)

/-- The files of the filesystem lying under a directory. -/
def files_under (fs : FS) (p : FPath) : List (FPath × String) :=
  fs.files.filter (fun f => p.isPrefixOf f.1)

/-- Git provenance oracle: the raw outputs of the four `subprocess` calls of
`get_git_info` (short revision, branch, `git status --porcelain` output,
commit date). -/
structure GitState where
  revision : String
  branch : String
  status_porcelain : String
  date : String
  deriving DecidableEq, Repr

/-- `get_git_info` of run.py: returns revision, branch, dirty marker and
date, where the dirty marker is `(dirty)` when the stripped porcelain status
is nonempty and the empty string otherwise. -/
def get_git_info (g : GitState) : String × String × String × String :=
  (g.revision, g.branch,
   if pyStrip g.status_porcelain ≠ "" then "(dirty)" else "", g.date)

/-- The text `write_boot_ini` of run.py writes: its five `ini_file.write`
calls concatenated, with the interpolations of its f-strings. -/
def boot_ini_content (config : ArchConfig) (g : GitState) : String :=
  let info := get_git_info g
  let revision := info.1
  let branch := info.2.1
  let dirty := info.2.2.1
  let date := info.2.2.2
  ("revision = \"" ++ revision ++ dirty ++ " " ++ date ++ ", branch \x27" ++
    branch ++ "\x27\"\n") ++
  ("log_device = " ++ config.log_device ++ "\n") ++
  "log_level = trace\n" ++
  "wait_for_start = false\n" ++
  "walk_page_tables = false\n"

/-- `write_boot_ini` of run.py as a filesystem operation: opens
`EFI_DIR/<boot_ini>` in `w` mode (overwrite) and writes the descriptor. -/
def write_boot_ini (pwd : String) (config : ArchConfig) (g : GitState) (fs : FS) : FS :=
  write_file fs (strPath (EFI_DIR pwd ++ "/" ++ config.boot_ini))
    (boot_ini_content config g)

/-- Splitting a character list on newline characters: the segments between
newlines, with one trailing segment after the last newline. -/
def splitNl : List Char → List (List Char)
  | [] => [[]]
  | c :: cs =>
    if c = '\n' then [] :: splitNl cs
    else
      match splitNl cs with
      | [] => [[c]]
      | l :: ls => (c :: l) :: ls

/-- `build_project` of run.py.  `cargo_ok` is the toolchain oracle: whether
the cargo invocation for a given target triple exits successfully.  The
result records the target triples actually invoked, in order, and the final
outcome; the first `CalledProcessError` is re-raised, so a failing first
invocation skips the second. -/
def build_project (cargo_ok : String → Bool) (arch : String) (release : Bool) :
    List String × Except AppError Unit :=
  let t1 := arch ++ "-unknown-uefi"
  let t2 := arch ++ "-unknown-linux-gnu"
  if cargo_ok t1 then
    if cargo_ok t2 then ([t1, t2], .ok ())
    else ([t1, t2], .error (.buildFailure arch))
  else ([t1], .error (.buildFailure arch))

/-- Sequential build over a list of architectures, stopping at the first
failure, recording the target triples invoked: the loop body of
`build_all_arches`. -/
def build_seq (cargo_ok : String → Bool) (release : Bool) :
    List String → List String × Except AppError Unit
  | [] => ([], .ok ())
  | a :: rest =>
    match build_project cargo_ok a release with
    | (t, .error e) => (t, .error e)
    | (t, .ok ()) =>
      let r := build_seq cargo_ok release rest
      (t ++ r.1, r.2)

/-- `build_all_arches` of run.py: iterate `build_project` over the keys of
`ARCH_CONFIG` in order. -/
def build_all_arches (pwd : String) (cargo_ok : String → Bool) (release : Bool) :
    List String × Except AppError Unit :=
  build_seq cargo_ok release ((ARCH_CONFIG pwd).map Prod.fst)

/-- `run_qemu` of run.py: look up the configuration, stage
(`setup_directories`, `copy_files`, `write_boot_ini`), resolve the
accelerator, compose the command and run it with `check=True` (a nonzero
emulator exit raises).  A missing key in `ARCH_CONFIG[arch]` raises before
any staging.  On success the composed argument vector is returned for
inspection. -/
def run_qemu (pwd host_machine host_system : String) (g : GitState)
    (qemu_exit : Nat) (arch : String) (accel release : Bool) (fs : FS) :
    FS × Except AppError (List String) :=
  match (ARCH_CONFIG pwd).lookup arch with
  | none => (fs, .error (.configuration arch))
  | some config =>
    let fs1 := setup_directories pwd fs
    let fs2 := copy_files pwd arch config release fs1
    let fs3 := write_boot_ini pwd config g fs2
    match get_accelerator host_machine host_system arch accel with
    | .error e => (fs3, .error e)
    | .ok accel_option =>
      let cmd := qemu_command pwd arch config accel accel_option
      if qemu_exit = 0 then (fs3, .ok cmd)
      else (fs3, .error (.launchFailure qemu_exit))

/-- The command-line arguments run.py's argparse accepts. -/
structure Args where
  release : Bool
  accel : Bool
  build_only : Bool
  build_all : Bool
  arch : Option String
  deriving DecidableEq, Repr

/-- The body of the `try` block of `main`: dispatch on the requested
operation.  The missing-architecture branch only logs an error and returns
normally. -/
def main_dispatch (pwd : String) (a : Args) (cargo_ok : String → Bool)
    (host_machine host_system : String) (g : GitState) (qemu_exit : Nat)
    (fs : FS) : FS × Except AppError Unit :=
  if a.build_all then (fs, (build_all_arches pwd cargo_ok a.release).2)
  else
    match a.arch with
    | some arch =>
      match (build_project cargo_ok arch a.release).2 with
      | .error e => (fs, .error e)
      | .ok () =>
        if a.build_only then (fs, .ok ())
        else
          let r := run_qemu pwd host_machine host_system g qemu_exit arch
            a.accel a.release fs
          (r.1, r.2.map (fun _ => ()))
    | none => (fs, .ok ())

namespace run

/-- `main` of run.py: run the dispatch inside `try`, catch every exception
with `except Exception` and only log it, then return normally — so the
process exit code is 0 on both branches. -/
def main (pwd : String) (a : Args) (cargo_ok : String → Bool)
    (host_machine host_system : String) (g : GitState) (qemu_exit : Nat)
    (fs : FS) : Nat × FS :=
  let r := main_dispatch pwd a cargo_ok host_machine host_system g qemu_exit fs
  match r.2 with
  | .ok _ => (0, r.1)
  | .error _ => (0, r.1)

end run

/-- C1: for every supported architecture alias, `get_arch_name_normalized` is
idempotent. -/
theorem normalize_idempotent_on_aliases :
    ∀ x ∈ arch_aliases,
      get_arch_name_normalized (get_arch_name_normalized x) =
        get_arch_name_normalized x := by decide

/-- Witness for C1: the alias `arm64` is in the alias set and normalization is
idempotent on it. -/
theorem normalize_idempotent_on_aliases_witness :
    get_arch_name_normalized (get_arch_name_normalized "arm64") =
      get_arch_name_normalized "arm64" :=
  normalize_idempotent_on_aliases "arm64" (by decide)

/-- C7 (failing input): the claim says aliases are recognized
case-insensitively, but `get_arch_name_normalized` compares the original,
unlowered name against the alias spellings, so `"ARM64"` falls through to the
lower-cased pass-through `"arm64"` instead of the canonical `"aarch64"` that
the lowercase spelling of the same alias is mapped to. -/
theorem normalize_not_case_insensitive :
    get_arch_name_normalized "ARM64" = "arm64" ∧
      get_arch_name_normalized "arm64" = "aarch64" := by decide

/-- C4: `get_accelerator` fails with the incompatible-acceleration error
exactly when acceleration is requested and the normalized (lower-cased) host
architecture differs from the normalized target; with acceleration off it
returns the empty flag unconditionally; with matching architectures it picks
the flag by host operating system and never fails. -/
theorem get_accelerator_spec (host_machine host_system target : String) (accel : Bool) :
    (get_accelerator host_machine host_system target accel =
        .error .incompatibleAcceleration ↔
      accel = true ∧
        get_arch_name_normalized (pyLower host_machine) ≠
          get_arch_name_normalized target) ∧
    (accel = false → get_accelerator host_machine host_system target accel = .ok "") ∧
    (accel = true →
      get_arch_name_normalized (pyLower host_machine) =
          get_arch_name_normalized target →
      get_accelerator host_machine host_system target accel =
        .ok (if pyContains (pyLower host_system) "linux" then "-enable-kvm"
             else if pyContains (pyLower host_system) "darwin" then "-accel hvf"
             else "")) ∧
    (∀ e, get_accelerator host_machine host_system target accel = .error e →
      e = .incompatibleAcceleration) := by
  refine ⟨?_, ?_, ?_, ?_⟩
  · constructor
    · intro hc
      cases accel with
      | false => simp [get_accelerator] at hc
      | true =>
        by_cases h : get_arch_name_normalized (pyLower host_machine) =
            get_arch_name_normalized target
        · simp only [get_accelerator, Bool.not_true, Bool.false_eq_true,
            if_false, h, ne_eq, not_true_eq_false] at hc
          split_ifs at hc
        · exact ⟨rfl, h⟩
    · rintro ⟨ha, hm⟩
      subst ha
      simp [get_accelerator, hm]
  · intro ha
    subst ha
    simp [get_accelerator]
  · intro ha hm
    subst ha
    simp only [get_accelerator, Bool.not_true, Bool.false_eq_true, if_false,
      hm, ne_eq, not_true_eq_false]
    split_ifs <;> rfl
  · intro e hc
    cases accel with
    | false => simp [get_accelerator] at hc
    | true =>
      by_cases h : get_arch_name_normalized (pyLower host_machine) =
          get_arch_name_normalized target
      · simp only [get_accelerator, Bool.not_true, Bool.false_eq_true,
          if_false, h, ne_eq, not_true_eq_false] at hc
        split_ifs at hc
      · simp only [get_accelerator, Bool.not_true, Bool.false_eq_true,
          if_false, h, ne_eq, not_false_eq_true, if_true] at hc
        exact (Except.error.inj hc).symm

/-- Witness for C4: a concrete mismatching pair fails, and a concrete request
without acceleration returns the empty flag. -/
theorem get_accelerator_spec_witness :
    get_accelerator "x86_64" "Linux" "aarch64" true =
        .error .incompatibleAcceleration ∧
      get_accelerator "x86_64" "Linux" "aarch64" false = .ok "" :=
  ⟨(get_accelerator_spec "x86_64" "Linux" "aarch64" true).1.mpr ⟨rfl, by decide⟩,
   (get_accelerator_spec "x86_64" "Linux" "aarch64" false).2.1 rfl⟩

/-- C6: for every registered architecture and every flag `get_accelerator` can
return, the composed argument vector selects the host-passthrough cpu model
and omits the semihosting/debug-exit tokens exactly when acceleration is
enabled, and selects the fixed emulated cpu model and includes the
semihosting/debug-exit tokens exactly when acceleration is disabled. -/
theorem qemu_command_cpu_semihosting :
    ∀ p ∈ ARCH_CONFIG the_pwd, ∀ accel : Bool,
      ∀ opt ∈ ["", "-enable-kvm", "-accel hvf"],
        ((["-cpu", "host"] <:+: qemu_command the_pwd p.1 p.2 accel opt ∧
          ∀ t ∈ pySplit p.2.semihosting,
            t ∉ qemu_command the_pwd p.1 p.2 accel opt) ↔ accel = true) ∧
        ((["-cpu", p.2.cpu] <:+: qemu_command the_pwd p.1 p.2 accel opt ∧
          pySplit p.2.semihosting <:+: qemu_command the_pwd p.1 p.2 accel opt) ↔
            accel = false) := by decide

/-- Witness for C6: the x86_64 command without acceleration carries the
emulated cpu model and the debug-exit device. -/
theorem qemu_command_cpu_semihosting_witness :
    (["-cpu", "host"] <:+:
        qemu_command the_pwd "x86_64"
          (x86_64_config the_pwd) false "" ∧
      ∀ t ∈ pySplit "-device isa-debug-exit",
        t ∉ qemu_command the_pwd "x86_64"
          (x86_64_config the_pwd) false "") ↔ false = true :=
  (qemu_command_cpu_semihosting
    ("x86_64",
      x86_64_config the_pwd)
    (by decide) false "" (by decide)).1

/-- C10: the `VirtAddr` decomposition bounds every field and is a lossless
round trip of the low 48 bits of the address. -/
theorem virtAddr_decomposition (va : Nat) :
    (VirtAddr.ofNat va).offset < 2 ^ 12 ∧
    (VirtAddr.ofNat va).lvl0 < 2 ^ 9 ∧
    (VirtAddr.ofNat va).lvl1 < 2 ^ 9 ∧
    (VirtAddr.ofNat va).lvl2 < 2 ^ 9 ∧
    (VirtAddr.ofNat va).lvl3 < 2 ^ 9 ∧
    (VirtAddr.ofNat va).offset + ((VirtAddr.ofNat va).lvl0 <<< 12) +
      ((VirtAddr.ofNat va).lvl1 <<< 21) + ((VirtAddr.ofNat va).lvl2 <<< 30) +
      ((VirtAddr.ofNat va).lvl3 <<< 39) = va % 2 ^ 48 := by
  have h1 : va &&& 0xfff = va % 2 ^ 12 := Nat.and_pow_two_sub_one_eq_mod va 12
  have h2 : (va >>> 12) &&& 0x1ff = va / 2 ^ 12 % 2 ^ 9 := by
    rw [Nat.shiftRight_eq_div_pow]; exact Nat.and_pow_two_sub_one_eq_mod _ 9
  have h3 : (va >>> 21) &&& 0x1ff = va / 2 ^ 21 % 2 ^ 9 := by
    rw [Nat.shiftRight_eq_div_pow]; exact Nat.and_pow_two_sub_one_eq_mod _ 9
  have h4 : (va >>> 30) &&& 0x1ff = va / 2 ^ 30 % 2 ^ 9 := by
    rw [Nat.shiftRight_eq_div_pow]; exact Nat.and_pow_two_sub_one_eq_mod _ 9
  have h5 : (va >>> 39) &&& 0x1ff = va / 2 ^ 39 % 2 ^ 9 := by
    rw [Nat.shiftRight_eq_div_pow]; exact Nat.and_pow_two_sub_one_eq_mod _ 9
  simp only [VirtAddr.ofNat, Nat.shiftLeft_eq, h1, h2, h3, h4, h5]
  refine ⟨by omega, by omega, by omega, by omega, by omega, by omega⟩

/-- Splitting on a newline that follows a newline-free segment peels off that
segment. -/
theorem splitNl_append (l₁ l₂ : List Char) (h : '\n' ∉ l₁) :
    splitNl (l₁ ++ '\n' :: l₂) = l₁ :: splitNl l₂ := by
  induction l₁ with
  | nil => simp [splitNl]
  | cons c cs ih =>
    have hc : ¬ c = '\n' := fun e => h (e ▸ List.mem_cons_self c cs)
    have hcs : '\n' ∉ cs := fun hm => h (List.mem_cons_of_mem _ hm)
    simp [splitNl, hc, ih hcs]

/-- C5: for every registered architecture and every provenance result, the
boot descriptor text splits on newlines into exactly the five claimed
`key = value` lines, in order: the quoted revision string (with the dirty
marker `(dirty)` attached directly to the revision when the working tree is
dirty and absent otherwise, and revision, date and branch embedded verbatim),
the log device, the trace log level, and the two constant boolean flags. -/
theorem boot_ini_five_lines :
    ∀ p ∈ ARCH_CONFIG the_pwd, ∀ g : GitState,
      '\n' ∉ g.revision.toList → '\n' ∉ g.branch.toList → '\n' ∉ g.date.toList →
      splitNl (boot_ini_content p.2 g).toList =
        [("revision = \"" ++ g.revision ++
            (if pyStrip g.status_porcelain ≠ "" then "(dirty)" else "") ++ " " ++
            g.date ++ ", branch \x27" ++ g.branch ++ "\x27\"").toList,
         ("log_device = " ++ p.2.log_device).toList,
         "log_level = trace".toList,
         "wait_for_start = false".toList,
         "walk_page_tables = false".toList,
         []] := by
  intro p hp g h1 h2 h3
  simp only [String.toList] at h1 h2 h3
  have hd : '\n' ∉ (if pyStrip g.status_porcelain ≠ "" then "(dirty)" else "").data := by
    by_cases hc : pyStrip g.status_porcelain ≠ ""
    · rw [if_pos hc]; decide
    · rw [if_neg hc]; decide
  have hA : '\n' ∉ ("revision = \"" ++ g.revision ++
      (if pyStrip g.status_porcelain ≠ "" then "(dirty)" else "") ++ " " ++
      g.date ++ ", branch \x27" ++ g.branch ++ "\x27\"").data := by
    simp only [String.data_append]
    exact List.not_mem_append (List.not_mem_append (List.not_mem_append
      (List.not_mem_append (List.not_mem_append (List.not_mem_append
        (List.not_mem_append (by decide) h1) hd) (by decide)) h3)
      (by decide)) h2) (by decide)
  have hB : '\n' ∉ ("log_device = " ++ p.2.log_device).data := by
    have hld : p.2.log_device = "com1" ∨ p.2.log_device = "\"pl011@9000000\"" := by
      simp only [ARCH_CONFIG, List.mem_cons, List.not_mem_nil, or_false] at hp
      rcases hp with rfl | rfl
      · left; rfl
      · right; rfl
    simp only [String.data_append]
    rcases hld with h | h <;> rw [h] <;> decide
  have hshape : (boot_ini_content p.2 g).data =
      ("revision = \"" ++ g.revision ++
        (if pyStrip g.status_porcelain ≠ "" then "(dirty)" else "") ++ " " ++
        g.date ++ ", branch \x27" ++ g.branch ++ "\x27\"").data ++ '\n' ::
      (("log_device = " ++ p.2.log_device).data ++ '\n' ::
      (("log_level = trace").data ++ '\n' ::
      (("wait_for_start = false").data ++ '\n' ::
      (("walk_page_tables = false").data ++ '\n' :: [])))) := by
    simp [boot_ini_content, get_git_info, List.append_assoc]
  simp only [String.toList, hshape]
  rw [splitNl_append _ _ hA, splitNl_append _ _ hB,
    splitNl_append _ _ (by decide), splitNl_append _ _ (by decide),
    splitNl_append _ _ (by decide)]
  simp [splitNl, String.toList]

/-- Witness for C5: concrete dirty provenance on x86_64 produces the five
lines with the dirty marker attached. -/
theorem boot_ini_five_lines_witness :
    splitNl (boot_ini_content (x86_64_config the_pwd)
        { revision := "abc1234", branch := "main", status_porcelain := " M run.py",
          date := "2025-01-01@00:00:00" }).toList =
      [("revision = \"" ++ "abc1234" ++
          (if pyStrip " M run.py" ≠ "" then "(dirty)" else "") ++ " " ++
          "2025-01-01@00:00:00" ++ ", branch \x27" ++ "main" ++ "\x27\"").toList,
       ("log_device = " ++ "com1").toList,
       "log_level = trace".toList,
       "wait_for_start = false".toList,
       "walk_page_tables = false".toList,
       []] :=
  boot_ini_five_lines
    ("x86_64",
      x86_64_config the_pwd)
    (by decide)
    { revision := "abc1234", branch := "main", status_porcelain := " M run.py",
      date := "2025-01-01@00:00:00" }
    (by decide) (by decide) (by decide)

/-- Auxiliary: removing a tree that is not a prefix of `q` preserves the
existence of `q`. -/
theorem path_exists_rmtree (fs : FS) (p q : FPath) (hpq : p.isPrefixOf q = false)
    (h : path_exists fs q = true) : path_exists (rmtree fs p) q = true := by
  simp only [path_exists, rmtree, Bool.or_eq_true] at h ⊢
  rcases h with h | h
  · left
    rw [List.contains_iff_exists_mem_beq] at h ⊢
    obtain ⟨a, ha, hqa⟩ := h
    refine ⟨a, List.mem_filter.mpr ⟨ha, ?_⟩, hqa⟩
    have hq : q = a := by simpa using hqa
    subst hq
    simp [hpq]
  · right
    rw [List.any_eq_true] at h ⊢
    obtain ⟨f, hf, hq⟩ := h
    refine ⟨f, List.mem_filter.mpr ⟨hf, ?_⟩, hq⟩
    have hq1 : f.1 = q := by simpa using hq
    rw [hq1]
    simp [hpq]

/-- Auxiliary: one staging reset-and-populate pass, started on a filesystem
where both staging directories exist, leaves exactly the boot binary under
the EFI directory and exactly the two firmware copies under the firmware
directory.  The path side conditions are discharged by evaluation at each
registered configuration. -/
theorem reset_populate_clean (arch : String) (config : ArchConfig) (release : Bool) (fs : FS)
    (h1 : path_exists fs (strPath (EFI_DIR the_pwd)) = true)
    (h2 : path_exists fs (strPath (OVMF_DIR the_pwd)) = true)
    (hCV : strPath (OVMF_DIR the_pwd) ++ [os_path_basename config.ovmf_code] ≠
      strPath (OVMF_DIR the_pwd) ++ [os_path_basename config.ovmf_vars])
    (hCB : strPath (OVMF_DIR the_pwd) ++ [os_path_basename config.ovmf_code] ≠
      strPath (EFI_DIR the_pwd ++ "/efi/boot/" ++ config.boot_efi))
    (hVB : strPath (OVMF_DIR the_pwd) ++ [os_path_basename config.ovmf_vars] ≠
      strPath (EFI_DIR the_pwd ++ "/efi/boot/" ++ config.boot_efi))
    (hEc : (strPath (EFI_DIR the_pwd)).isPrefixOf
      (strPath (OVMF_DIR the_pwd) ++ [os_path_basename config.ovmf_code]) = false)
    (hEv : (strPath (EFI_DIR the_pwd)).isPrefixOf
      (strPath (OVMF_DIR the_pwd) ++ [os_path_basename config.ovmf_vars]) = false)
    (hEb : (strPath (EFI_DIR the_pwd)).isPrefixOf
      (strPath (EFI_DIR the_pwd ++ "/efi/boot/" ++ config.boot_efi)) = true)
    (hOc : (strPath (OVMF_DIR the_pwd)).isPrefixOf
      (strPath (OVMF_DIR the_pwd) ++ [os_path_basename config.ovmf_code]) = true)
    (hOv : (strPath (OVMF_DIR the_pwd)).isPrefixOf
      (strPath (OVMF_DIR the_pwd) ++ [os_path_basename config.ovmf_vars]) = true)
    (hOb : (strPath (OVMF_DIR the_pwd)).isPrefixOf
      (strPath (EFI_DIR the_pwd ++ "/efi/boot/" ++ config.boot_efi)) = false) :
    files_under (reset_and_populate the_pwd arch config release fs)
        (strPath (EFI_DIR the_pwd)) =
      [(strPath (EFI_DIR the_pwd ++ "/efi/boot/" ++ config.boot_efi),
        the_pwd ++ "/target/" ++ arch ++ "-unknown-uefi/" ++
          (if release then "release" else "debug") ++ "/boot_loader.efi")] ∧
    files_under (reset_and_populate the_pwd arch config release fs)
        (strPath (OVMF_DIR the_pwd)) =
      [(strPath (OVMF_DIR the_pwd) ++ [os_path_basename config.ovmf_code], config.ovmf_code),
       (strPath (OVMF_DIR the_pwd) ++ [os_path_basename config.ovmf_vars], config.ovmf_vars)] := by
  have h2' : path_exists (rmtree fs (strPath (EFI_DIR the_pwd)))
      (strPath (OVMF_DIR the_pwd)) = true :=
    path_exists_rmtree fs _ _ (by decide) h2
  simp only [reset_and_populate, setup_directories, copy_files, files_under]
  rw [if_pos h1, if_pos h2']
  simp only [write_file, makedirs, rmtree, List.filter_append]
  have hsubE : ∀ a ∈ ((((fs.files.filter
        (fun f => !(strPath (EFI_DIR the_pwd)).isPrefixOf f.1)).filter
        (fun f => !(strPath (OVMF_DIR the_pwd)).isPrefixOf f.1)).filter
        (fun f => f.1 ≠ strPath (OVMF_DIR the_pwd) ++ [os_path_basename config.ovmf_code])).filter
        (fun f => f.1 ≠ strPath (OVMF_DIR the_pwd) ++ [os_path_basename config.ovmf_vars])).filter
        (fun f => f.1 ≠ strPath (EFI_DIR the_pwd ++ "/efi/boot/" ++ config.boot_efi)),
      a ∈ fs.files.filter (fun f => !(strPath (EFI_DIR the_pwd)).isPrefixOf f.1) := by
    intro a ha
    exact List.filter_subset' _ (List.filter_subset' _ (List.filter_subset' _
      (List.filter_subset' _ ha)))
  have hsubO : ∀ a ∈ ((((fs.files.filter
        (fun f => !(strPath (EFI_DIR the_pwd)).isPrefixOf f.1)).filter
        (fun f => !(strPath (OVMF_DIR the_pwd)).isPrefixOf f.1)).filter
        (fun f => f.1 ≠ strPath (OVMF_DIR the_pwd) ++ [os_path_basename config.ovmf_code])).filter
        (fun f => f.1 ≠ strPath (OVMF_DIR the_pwd) ++ [os_path_basename config.ovmf_vars])).filter
        (fun f => f.1 ≠ strPath (EFI_DIR the_pwd ++ "/efi/boot/" ++ config.boot_efi)),
      a ∈ (fs.files.filter
        (fun f => !(strPath (EFI_DIR the_pwd)).isPrefixOf f.1)).filter
        (fun f => !(strPath (OVMF_DIR the_pwd)).isPrefixOf f.1) := by
    intro a ha
    exact List.filter_subset' _ (List.filter_subset' _ (List.filter_subset' _ ha))
  have hnilE : (((((fs.files.filter
        (fun f => !(strPath (EFI_DIR the_pwd)).isPrefixOf f.1)).filter
        (fun f => !(strPath (OVMF_DIR the_pwd)).isPrefixOf f.1)).filter
        (fun f => f.1 ≠ strPath (OVMF_DIR the_pwd) ++ [os_path_basename config.ovmf_code])).filter
        (fun f => f.1 ≠ strPath (OVMF_DIR the_pwd) ++ [os_path_basename config.ovmf_vars])).filter
        (fun f => f.1 ≠ strPath (EFI_DIR the_pwd ++ "/efi/boot/" ++ config.boot_efi))).filter
        (fun f => (strPath (EFI_DIR the_pwd)).isPrefixOf f.1) = [] := by
    rw [List.filter_eq_nil_iff]
    intro a ha
    have := (List.mem_filter.mp (hsubE a ha)).2
    simp_all
  have hnilO : (((((fs.files.filter
        (fun f => !(strPath (EFI_DIR the_pwd)).isPrefixOf f.1)).filter
        (fun f => !(strPath (OVMF_DIR the_pwd)).isPrefixOf f.1)).filter
        (fun f => f.1 ≠ strPath (OVMF_DIR the_pwd) ++ [os_path_basename config.ovmf_code])).filter
        (fun f => f.1 ≠ strPath (OVMF_DIR the_pwd) ++ [os_path_basename config.ovmf_vars])).filter
        (fun f => f.1 ≠ strPath (EFI_DIR the_pwd ++ "/efi/boot/" ++ config.boot_efi))).filter
        (fun f => (strPath (OVMF_DIR the_pwd)).isPrefixOf f.1) = [] := by
    rw [List.filter_eq_nil_iff]
    intro a ha
    have := (List.mem_filter.mp (hsubO a ha)).2
    simp_all
  rw [hnilE, hnilO]
  constructor
  · simp only [List.filter_singleton]
    simp [hCV, hCB, hVB, hEc, hEv, hEb]
  · simp only [List.filter_singleton]
    simp [hCV, hCB, hVB, hOc, hOv, hOb]

/-- Auxiliary: after a staging reset-and-populate pass both staging
directories exist and the nested boot directory has been created. -/
theorem reset_populate_exists (arch : String) (config : ArchConfig) (release : Bool) (fs : FS) :
    path_exists (reset_and_populate the_pwd arch config release fs)
        (strPath (EFI_DIR the_pwd)) = true ∧
    path_exists (reset_and_populate the_pwd arch config release fs)
        (strPath (OVMF_DIR the_pwd)) = true ∧
    strPath (EFI_DIR the_pwd ++ "/efi/boot") ∈
      (reset_and_populate the_pwd arch config release fs).dirs ∧
    strPath (OVMF_DIR the_pwd) ∈
      (reset_and_populate the_pwd arch config release fs).dirs := by
  simp [reset_and_populate, setup_directories, copy_files, write_file, makedirs, path_exists,
    show strPath (EFI_DIR the_pwd) = ["corgos", "esp"] from by decide,
    show strPath (OVMF_DIR the_pwd) = ["corgos", "ovmf"] from by decide,
    show strPath (EFI_DIR the_pwd ++ "/efi/boot") = ["corgos", "esp", "efi", "boot"] from by decide]

/-- C8: for every registered architecture and build profile, two successive
staging reset-and-populate passes leave the staging area with exactly one
boot binary under the EFI directory and exactly the two firmware images
under the firmware directory (no stale or duplicate file from the first pass
survives), with the nested boot directory recreated; and a single pass over
a filesystem whose EFI-staging and firmware directories pre-exist removes
them entirely and leaves exactly the same three files. -/
theorem staging_reset_twice :
    ∀ p ∈ ARCH_CONFIG the_pwd, ∀ (release : Bool) (fs : FS),
      (files_under (reset_and_populate the_pwd p.1 p.2 release
          (reset_and_populate the_pwd p.1 p.2 release fs)) (strPath (EFI_DIR the_pwd)) =
        [(strPath (EFI_DIR the_pwd ++ "/efi/boot/" ++ p.2.boot_efi),
          the_pwd ++ "/target/" ++ p.1 ++ "-unknown-uefi/" ++
            (if release then "release" else "debug") ++ "/boot_loader.efi")] ∧
       files_under (reset_and_populate the_pwd p.1 p.2 release
          (reset_and_populate the_pwd p.1 p.2 release fs)) (strPath (OVMF_DIR the_pwd)) =
        [(strPath (OVMF_DIR the_pwd) ++ [os_path_basename p.2.ovmf_code], p.2.ovmf_code),
         (strPath (OVMF_DIR the_pwd) ++ [os_path_basename p.2.ovmf_vars], p.2.ovmf_vars)] ∧
       strPath (EFI_DIR the_pwd ++ "/efi/boot") ∈
         (reset_and_populate the_pwd p.1 p.2 release
           (reset_and_populate the_pwd p.1 p.2 release fs)).dirs ∧
       strPath (OVMF_DIR the_pwd) ∈
         (reset_and_populate the_pwd p.1 p.2 release
           (reset_and_populate the_pwd p.1 p.2 release fs)).dirs) ∧
      (path_exists fs (strPath (EFI_DIR the_pwd)) = true →
       path_exists fs (strPath (OVMF_DIR the_pwd)) = true →
        files_under (reset_and_populate the_pwd p.1 p.2 release fs)
            (strPath (EFI_DIR the_pwd)) =
          [(strPath (EFI_DIR the_pwd ++ "/efi/boot/" ++ p.2.boot_efi),
            the_pwd ++ "/target/" ++ p.1 ++ "-unknown-uefi/" ++
              (if release then "release" else "debug") ++ "/boot_loader.efi")] ∧
        files_under (reset_and_populate the_pwd p.1 p.2 release fs)
            (strPath (OVMF_DIR the_pwd)) =
          [(strPath (OVMF_DIR the_pwd) ++ [os_path_basename p.2.ovmf_code], p.2.ovmf_code),
           (strPath (OVMF_DIR the_pwd) ++ [os_path_basename p.2.ovmf_vars],
             p.2.ovmf_vars)]) := by
  intro p hp release fs
  simp only [ARCH_CONFIG, List.mem_cons, List.not_mem_nil, or_false] at hp
  rcases hp with rfl | rfl
  · obtain ⟨he, ho, -, -⟩ :=
      reset_populate_exists "x86_64" (x86_64_config the_pwd) release fs
    obtain ⟨-, -, hd1, hd2⟩ :=
      reset_populate_exists "x86_64" (x86_64_config the_pwd) release
        (reset_and_populate the_pwd "x86_64" (x86_64_config the_pwd) release fs)
    obtain ⟨hc1, hc2⟩ := reset_populate_clean "x86_64" (x86_64_config the_pwd) release _
      he ho (by decide) (by decide) (by decide) (by decide) (by decide) (by decide)
      (by decide) (by decide) (by decide)
    exact ⟨⟨hc1, hc2, hd1, hd2⟩, fun h1 h2 =>
      reset_populate_clean "x86_64" (x86_64_config the_pwd) release fs h1 h2 (by decide)
        (by decide) (by decide) (by decide) (by decide) (by decide) (by decide) (by decide)
        (by decide)⟩
  · obtain ⟨he, ho, -, -⟩ :=
      reset_populate_exists "aarch64" (aarch64_config the_pwd) release fs
    obtain ⟨-, -, hd1, hd2⟩ :=
      reset_populate_exists "aarch64" (aarch64_config the_pwd) release
        (reset_and_populate the_pwd "aarch64" (aarch64_config the_pwd) release fs)
    obtain ⟨hc1, hc2⟩ := reset_populate_clean "aarch64" (aarch64_config the_pwd) release _
      he ho (by decide) (by decide) (by decide) (by decide) (by decide) (by decide)
      (by decide) (by decide) (by decide)
    exact ⟨⟨hc1, hc2, hd1, hd2⟩, fun h1 h2 =>
      reset_populate_clean "aarch64" (aarch64_config the_pwd) release fs h1 h2 (by decide)
        (by decide) (by decide) (by decide) (by decide) (by decide) (by decide) (by decide)
        (by decide)⟩

/-- Witness for C8: on a concrete filesystem that already has both staging
directories, a single pass leaves exactly the three staged files. -/
theorem staging_reset_twice_witness :
    files_under (reset_and_populate the_pwd "x86_64"
        (x86_64_config the_pwd) false
        ⟨[["corgos", "esp"], ["corgos", "ovmf"]],
         [(["corgos", "esp", "stale.txt"], "stale")]⟩)
        (strPath (EFI_DIR the_pwd)) =
      [(strPath (EFI_DIR the_pwd ++ "/efi/boot/" ++ "bootx64.efi"),
        the_pwd ++ "/target/" ++ "x86_64" ++ "-unknown-uefi/" ++
          (if false then "release" else "debug") ++ "/boot_loader.efi")] :=
  ((staging_reset_twice
    ("x86_64",
      x86_64_config the_pwd)
    (by decide) false
    ⟨[["corgos", "esp"], ["corgos", "ovmf"]],
     [(["corgos", "esp", "stale.txt"], "stale")]⟩).2 (by decide) (by decide)).1

/-- Auxiliary: a written file is present afterwards. -/
theorem mem_write_file_self (fs : FS) (p : FPath) (c : String) :
    p ∈ (write_file fs p c).files.map Prod.fst := by
  simp [write_file]

/-- Auxiliary: writing one file preserves the presence of any other path. -/
theorem mem_write_file_other (fs : FS) (p : FPath) (c : String) (q : FPath) (h : q ≠ p)
    (hq : q ∈ fs.files.map Prod.fst) : q ∈ (write_file fs p c).files.map Prod.fst := by
  simp only [write_file, List.map_append, List.mem_append]
  left
  simp only [List.mem_map] at hq ⊢
  obtain ⟨f, hf, rfl⟩ := hq
  exact ⟨f, List.mem_filter.mpr ⟨hf, by simpa using h⟩, rfl⟩

/-- C3 (amended): when acceleration is requested for a registered target whose
normalized name differs from the normalized host architecture, `run_qemu`
fails with the incompatible-acceleration error, but only after staging: the
staging directories have been reset and populated and the boot descriptor has
been written before the accelerator check raises, and the emulator is never
executed. -/
theorem run_qemu_error_after_staging :
    ∀ p ∈ ARCH_CONFIG the_pwd,
      ∀ (host_machine host_system : String) (g : GitState) (qemu_exit : Nat)
        (release : Bool) (fs : FS),
      get_arch_name_normalized (pyLower host_machine) ≠ get_arch_name_normalized p.1 →
      (run_qemu the_pwd host_machine host_system g qemu_exit p.1 true release fs).2 =
          .error .incompatibleAcceleration ∧
      strPath (EFI_DIR the_pwd ++ "/" ++ p.2.boot_ini) ∈
        (run_qemu the_pwd host_machine host_system g qemu_exit p.1 true release
          fs).1.files.map Prod.fst ∧
      strPath (EFI_DIR the_pwd ++ "/efi/boot/" ++ p.2.boot_efi) ∈
        (run_qemu the_pwd host_machine host_system g qemu_exit p.1 true release
          fs).1.files.map Prod.fst ∧
      strPath (OVMF_DIR the_pwd) ++ [os_path_basename p.2.ovmf_code] ∈
        (run_qemu the_pwd host_machine host_system g qemu_exit p.1 true release
          fs).1.files.map Prod.fst ∧
      strPath (OVMF_DIR the_pwd) ++ [os_path_basename p.2.ovmf_vars] ∈
        (run_qemu the_pwd host_machine host_system g qemu_exit p.1 true release
          fs).1.files.map Prod.fst := by
  intro p hp host_machine host_system g qemu_exit release fs hne
  simp only [ARCH_CONFIG, List.mem_cons, List.not_mem_nil, or_false] at hp
  have hacc : ∀ a : String, get_arch_name_normalized (pyLower host_machine) ≠
      get_arch_name_normalized a →
      get_accelerator host_machine host_system a true = .error .incompatibleAcceleration := by
    intro a ha
    simp only [get_accelerator, Bool.not_true, Bool.false_eq_true, if_false]
    rw [if_pos ha]
  rcases hp with rfl | rfl
  · have hlk : (ARCH_CONFIG the_pwd).lookup "x86_64" = some (x86_64_config the_pwd) := by
      decide
    simp only [run_qemu, hlk, hacc _ hne]
    simp only [write_boot_ini, copy_files]
    refine ⟨trivial, mem_write_file_self _ _ _, ?_, ?_, ?_⟩
    · exact mem_write_file_other _ _ _ _ (by decide) (mem_write_file_self _ _ _)
    · exact mem_write_file_other _ _ _ _ (by decide) (mem_write_file_other _ _ _ _
        (by decide) (mem_write_file_other _ _ _ _ (by decide) (mem_write_file_self _ _ _)))
    · exact mem_write_file_other _ _ _ _ (by decide) (mem_write_file_other _ _ _ _
        (by decide) (mem_write_file_self _ _ _))
  · have hlk : (ARCH_CONFIG the_pwd).lookup "aarch64" = some (aarch64_config the_pwd) := by
      decide
    simp only [run_qemu, hlk, hacc _ hne]
    simp only [write_boot_ini, copy_files]
    refine ⟨trivial, mem_write_file_self _ _ _, ?_, ?_, ?_⟩
    · exact mem_write_file_other _ _ _ _ (by decide) (mem_write_file_self _ _ _)
    · exact mem_write_file_other _ _ _ _ (by decide) (mem_write_file_other _ _ _ _
        (by decide) (mem_write_file_other _ _ _ _ (by decide) (mem_write_file_self _ _ _)))
    · exact mem_write_file_other _ _ _ _ (by decide) (mem_write_file_other _ _ _ _
        (by decide) (mem_write_file_self _ _ _))

/-- Witness for C3 (amended): concrete x86_64 host launching aarch64 with
acceleration. -/
theorem run_qemu_error_after_staging_witness :
    (run_qemu the_pwd "x86_64" "Linux"
        { revision := "abc1234", branch := "main", status_porcelain := "",
          date := "2025-01-01@00:00:00" } 0 "aarch64" true false FS.empty).2 =
      .error .incompatibleAcceleration :=
  (run_qemu_error_after_staging ("aarch64", aarch64_config the_pwd) (by decide)
    "x86_64" "Linux"
    { revision := "abc1234", branch := "main", status_porcelain := "",
      date := "2025-01-01@00:00:00" } 0 false FS.empty (by decide)).1

/-- C3 (counterexample): the claim says that on an acceleration mismatch the
failure happens before any staging, with no boot descriptor written; on this
concrete input `run_qemu` raises the incompatible-acceleration error, yet the
boot descriptor file and the staged boot binary are present in the resulting
filesystem. -/
theorem run_qemu_staging_counterexample :
    (run_qemu the_pwd "x86_64" "Linux"
        { revision := "abc1234", branch := "main", status_porcelain := "",
          date := "2025-01-01@00:00:00" } 0 "aarch64" true false FS.empty).2 =
        .error .incompatibleAcceleration ∧
      strPath (EFI_DIR the_pwd ++ "/" ++ "corgos-boot-aarch64.ini") ∈
        (run_qemu the_pwd "x86_64" "Linux"
          { revision := "abc1234", branch := "main", status_porcelain := "",
            date := "2025-01-01@00:00:00" } 0 "aarch64" true false
          FS.empty).1.files.map Prod.fst ∧
      (run_qemu the_pwd "x86_64" "Linux"
          { revision := "abc1234", branch := "main", status_porcelain := "",
            date := "2025-01-01@00:00:00" } 0 "aarch64" true false
          FS.empty).1 ≠ FS.empty := by
  refine ⟨rfl, by decide, by decide⟩

/-- C9: `build_all_arches` walks the registered architectures in order and is
fail-fast: if the first architecture's build fails, the failure is returned
and no target of the second architecture is invoked; if the second fails
after the first succeeds, the failure is returned after both were attempted;
if both succeed, every registered architecture is built in sequence. -/
theorem build_all_fail_fast (cargo_ok : String → Bool) (release : Bool) :
    ((build_project cargo_ok "x86_64" release).2 = .ok () →
     (build_project cargo_ok "aarch64" release).2 = .ok () →
      build_all_arches the_pwd cargo_ok release =
        ((build_project cargo_ok "x86_64" release).1 ++
          (build_project cargo_ok "aarch64" release).1, .ok ())) ∧
    (∀ e, (build_project cargo_ok "x86_64" release).2 = .error e →
      build_all_arches the_pwd cargo_ok release =
        ((build_project cargo_ok "x86_64" release).1, .error e) ∧
      ∀ t ∈ (build_all_arches the_pwd cargo_ok release).1,
        t ≠ "aarch64" ++ "-unknown-uefi" ∧ t ≠ "aarch64" ++ "-unknown-linux-gnu") ∧
    (∀ e, (build_project cargo_ok "x86_64" release).2 = .ok () →
      (build_project cargo_ok "aarch64" release).2 = .error e →
      build_all_arches the_pwd cargo_ok release =
        ((build_project cargo_ok "x86_64" release).1 ++
          (build_project cargo_ok "aarch64" release).1, .error e)) := by
  cases hx1 : cargo_ok ("x86_64" ++ "-unknown-uefi") <;>
    cases hx2 : cargo_ok ("x86_64" ++ "-unknown-linux-gnu") <;>
      cases ha1 : cargo_ok ("aarch64" ++ "-unknown-uefi") <;>
        cases ha2 : cargo_ok ("aarch64" ++ "-unknown-linux-gnu") <;>
          simp_all [build_all_arches, build_seq, build_project, ARCH_CONFIG]

/-- Witness for C9: with a toolchain oracle that always succeeds, both
architectures are built in order. -/
theorem build_all_fail_fast_witness :
    build_all_arches the_pwd (fun _ => true) false =
      ((build_project (fun _ => true) "x86_64" false).1 ++
        (build_project (fun _ => true) "aarch64" false).1, .ok ()) :=
  (build_all_fail_fast (fun _ => true) false).1 rfl rfl

/-- C2 (failing evaluation): a build failure is caught by `main`'s
`except Exception` handler, which only logs it, so the process exit code is 0
even though the dispatched operation failed — the claim that build failures
produce a nonzero exit code does not hold on the code. -/
theorem main_exit_zero_on_build_failure :
    (main_dispatch the_pwd
        { release := false, accel := false, build_only := true, build_all := false,
          arch := some "x86_64" }
        (fun _ => false) "x86_64" "Linux"
        { revision := "r", branch := "b", status_porcelain := "", date := "d" } 0
        FS.empty).2 = .error (.buildFailure "x86_64") ∧
      (run.main the_pwd
        { release := false, accel := false, build_only := true, build_all := false,
          arch := some "x86_64" }
        (fun _ => false) "x86_64" "Linux"
        { revision := "r", branch := "b", status_porcelain := "", date := "d" } 0
        FS.empty).1 = 0 := ⟨rfl, rfl⟩
